import Mathlib

/-!
Shallow embedding of the dynamic machine-creation form controller from
`src/ui/src/app/machines/views/AddMachine/AddMachineForm/AddMachineForm.js`,
together with proofs settling the frozen claims about it.

Field values seen by the validation schema are modelled as `Option String`
(`none` = the JS value `undefined`, i.e. an absent field; `some s` = a present
string, possibly empty).  The Yup combinator semantics are translated from the
library behaviour the source relies on:
  * `matches` passes absent values and otherwise tests the regular expression
    (the `excludeEmptyString` option is not set, so the empty string is tested
    and fails the pattern);
  * `string().required()` rejects absent values and the empty string;
  * `when("power_type", { is, then })` concatenates the `then` rules onto the
    base rules exactly when `is` holds of the sibling value.
-/

namespace AddMachine

/-- The character class `[0-9A-Fa-f]` of the MAC-address pattern. -/
def isHexDigit (c : Char) : Bool :=
  (('0' ≤ c && c ≤ '9') || ('A' ≤ c && c ≤ 'F') || ('a' ≤ c && c ≤ 'f'))

/-- `macGroups n cs` holds when `cs` consists of `n` groups `HH:` followed by a
final group `HH`, i.e. the tail of the anchored pattern
`^([0-9A-Fa-f]{2}:){n}([0-9A-Fa-f]{2})$`. -/
def macGroups : Nat → List Char → Bool
  | 0, [a, b] => isHexDigit a && isHexDigit b
  | n + 1, a :: b :: c :: rest =>
      isHexDigit a && isHexDigit b && c == ':' && macGroups n rest
  | _, _ => false

/-- The pattern `/^([0-9A-Fa-f]{2}:){5}([0-9A-Fa-f]{2})$/` used for both the
primary and the secondary hardware-address fields. -/
def isMac (s : String) : Bool :=
  macGroups 5 s.data

/-- Yup `matches` test: absent values pass; present values (the empty string
included, as `excludeEmptyString` is not set) must match the pattern. -/
def matchesTest (v : Option String) : Bool :=
  match v with
  | none => true
  | some s => isMac s

/-- Yup `string().required()` test: rejects absent values and the empty
string. -/
def requiredTest (v : Option String) : Bool :=
  match v with
  | none => false
  | some s => !(s == "")

/-- The `is` predicate of the `when("power_type", ...)` clause on `pxe_mac`:
`(power_type) => power_type !== "ipmi"`. -/
def pxeMacConditionHolds (power_type : Option String) : Bool :=
  !(power_type == some "ipmi")

/-- Validation errors produced for the `pxe_mac` field:
`Yup.string().matches(macPattern, "Invalid MAC address").when("power_type",
{ is: (power_type) => power_type !== "ipmi", then:
Yup.string().required("At least one MAC address required") })`. -/
def pxeMacErrors (power_type pxe_mac : Option String) : List String :=
  (if matchesTest pxe_mac then [] else ["Invalid MAC address"]) ++
    (if pxeMacConditionHolds power_type && !(requiredTest pxe_mac) then
      ["At least one MAC address required"]
    else [])

/-- Indices (from `start`) of the entries of an `extra_macs` list that fail the
per-entry `matches` test of `Yup.array().of(Yup.string().matches(...))`. -/
def extraMacsErrorsFrom : Nat → List String → List Nat
  | _, [] => []
  | i, e :: rest =>
      (if isMac e then [] else [i]) ++ extraMacsErrorsFrom (i + 1) rest

/-- Indices of the `extra_macs` entries that carry a field-level
"Invalid MAC address" error. -/
def extraMacsErrors (l : List String) : List Nat :=
  extraMacsErrorsFrom 0 l

/-! ### Error normalization

The `machineErrors` value delivered by the store is either absent/falsy, a
single string, or an object mapping field names to messages (modelled as an
association list in the object's key-iteration order). -/

/-- The three shapes the failure payload can take. -/
inductive MachineErrors
  | noErrors
  | str (s : String)
  | obj (entries : List (String × String))

/-- The displayed error string, translated from
`let errors = ""; if (machineErrors && typeof machineErrors === "string")
errors = machineErrors; else if (machineErrors && typeof machineErrors ===
"object") Object.keys(machineErrors).forEach((key) => { errors = errors +
machineErrors[key] + " " });`.  The empty string is falsy in JS, so for
`.str ""` the first branch is skipped and `errors` keeps its initial value
`""` (which coincides with the payload). -/
def errorsDisplay : MachineErrors → String
  | .noErrors => ""
  | .str s => if s == "" then "" else s
  | .obj entries => entries.foldl (fun acc kv => acc ++ kv.2 ++ " ") ""

/-! ### Readiness gating -/

/-- The seven per-collection `loaded` selectors read by the component. -/
structure LoadedFlags where
  architecturesLoaded : Bool
  defaultMinHweKernelLoaded : Bool
  domainsLoaded : Bool
  hweKernelsLoaded : Bool
  powerTypesLoaded : Bool
  resourcePoolsLoaded : Bool
  zonesLoaded : Bool

/-- `allLoaded`: the conjunction of the seven `loaded` flags. -/
def allLoaded (f : LoadedFlags) : Bool :=
  f.architecturesLoaded && f.defaultMinHweKernelLoaded && f.domainsLoaded &&
    f.hweKernelsLoaded && f.powerTypesLoaded && f.resourcePoolsLoaded &&
    f.zonesLoaded

/-- What the component renders: `{!allLoaded ? <Spinner .../> : <FormCard
...>}` — either the progress indicator or the interactive form card. -/
inductive Rendered
  | spinner
  | formCard
deriving DecidableEq

/-- The render branch of `AddMachineForm`. -/
def render (f : LoadedFlags) : Rendered :=
  if allLoaded f then .formCard else .spinner

/-! ### Initial values and reference collections -/

/-- A record of a named reference collection (domain, resource pool, zone);
only the `name` attribute is consulted by this component. -/
structure NamedRecord where
  name : String
deriving DecidableEq

/-- The reference data the component reads from the store (architectures are
plain strings; domains, pools and zones are named records). -/
structure ReferenceSnapshot where
  architectures : List String
  domains : List NamedRecord
  resourcePools : List NamedRecord
  zones : List NamedRecord
  defaultMinHweKernel : String

/-- The flat form values (`initialValues` shape; `power_parameters` is managed
by an external collaborator and not consulted by any claim). -/
structure Values where
  architecture : String
  domain : String
  extra_macs : List String
  hostname : String
  min_hwe_kernel : String
  pool : String
  power_type : String
  pxe_mac : String
  zone : String
deriving DecidableEq

/-- JS `(l.length && l[0]) || ""` on a list of strings: an empty list gives
`0`, which is falsy, hence `""`; a non-empty list gives its head, with `||`
replacing a falsy head (the empty string) by `""`. -/
def firstOrEmpty (l : List String) : String :=
  match l with
  | [] => ""
  | a :: _ => if a == "" then "" else a

/-- JS `(l.length && l[0].name) || ""` on a list of named records. -/
def firstNameOrEmpty (l : List NamedRecord) : String :=
  match l with
  | [] => ""
  | r :: _ => if r.name == "" then "" else r.name

/-- The `initialValues` passed to the form, translated field by field from the
component (`min_hwe_kernel: defaultMinHweKernel || ""`). -/
def initialValues (refs : ReferenceSnapshot) : Values :=
  { architecture := firstOrEmpty refs.architectures
    domain := firstNameOrEmpty refs.domains
    extra_macs := []
    hostname := ""
    min_hwe_kernel :=
      if refs.defaultMinHweKernel == "" then "" else refs.defaultMinHweKernel
    pool := firstNameOrEmpty refs.resourcePools
    power_type := ""
    pxe_mac := ""
    zone := firstNameOrEmpty refs.zones }

/-! ### Submission mapping -/

/-- The creation command built inside `onSubmit`.  `domain`, `pool` and `zone`
are looked up by name with `Array.prototype.find`, which yields `undefined`
(here `none`) when no record matches.  The `power_parameters` field is shaped
by the external `formatPowerParameters` collaborator and is not consulted by
any claim, so it is left out of the embedded command. -/
structure Params where
  architecture : String
  domain : Option NamedRecord
  extra_macs : List String
  hostname : String
  min_hwe_kernel : String
  pool : Option NamedRecord
  power_type : String
  pxe_mac : String
  zone : Option NamedRecord
deriving DecidableEq

/-- The `params` object of `onSubmit`, field by field.  `filter(Boolean)` on a
list of strings keeps exactly the truthy entries, i.e. the non-empty ones. -/
def onSubmitParams (values : Values) (refs : ReferenceSnapshot) : Params :=
  { architecture := values.architecture
    domain := refs.domains.find? (fun domain => domain.name == values.domain)
    extra_macs := values.extra_macs.filter (fun m => !(m == ""))
    hostname := values.hostname
    min_hwe_kernel := values.min_hwe_kernel
    pool := refs.resourcePools.find? (fun pool => pool.name == values.pool)
    power_type := values.power_type
    pxe_mac := values.pxe_mac
    zone := refs.zones.find? (fun zone => zone.name == values.zone) }

/-- The observable effect of the `onSubmit` handler: the list of creation
commands dispatched to the store (always exactly one — the handler has no
early exit), and the `savingMachine` name recorded for the success
notification via `setSavingMachine(values.hostname || "Machine")`. -/
structure SubmitEffect where
  dispatchedCreates : List Params
  savingMachine : String
deriving DecidableEq

/-- The `onSubmit` handler: builds `params`, dispatches
`machineActions.create(params)` unconditionally, and records the
notification name. -/
def onSubmit (values : Values) (refs : ReferenceSnapshot) : SubmitEffect :=
  { dispatchedCreates := [onSubmitParams values refs]
    savingMachine := if values.hostname == "" then "Machine" else values.hostname }

/-- The success notification text passed to `useAddMessage`:
`` `${savingMachine} added successfully.` ``. -/
def successMessage (savingMachine : String) : String :=
  savingMachine ++ " added successfully."

/-! ### Save / reset / navigation lifecycle -/

/-- The component state relevant to the save lifecycle: the `resetOnSave`
flag, the current form values, whether the store reports the machine saved,
and any navigation request issued so far. -/
structure FormLifecycleState where
  resetOnSave : Bool
  values : Values
  machineSaved : Bool
  navigation : Option String
deriving DecidableEq

/-- `secondarySubmit={() => setResetOnSave(true)}`: choosing "Save and add
another" sets the flag; it is the only writer that sets it. -/
def clickSecondarySubmit (st : FormLifecycleState) : FormLifecycleState :=
  { st with resetOnSave := true }

/-- `savedRedirect={resetOnSave ? undefined : "/machines"}`. -/
def savedRedirect (resetOnSave : Bool) : Option String :=
  if resetOnSave then none else some "/machines"

/-- Modelled from the spec: the `FormikForm` component
(`app/base/components/FormikForm`, not among the shown sources) reacts to a
successful save using its `resetOnSave` and `savedRedirect` props — "when
`resetOnSave` is set, the form clears and reopens instead of navigating away"
and it "triggers external navigation away from the form on success" when the
flag is unset, via the `savedRedirect` path. -/
def formikFormOnSaved (initial : Values) (st : FormLifecycleState) :
    FormLifecycleState :=
  { st with
    machineSaved := true
    values := if st.resetOnSave then initial else st.values
    navigation := savedRedirect st.resetOnSave }

/-- The component effect `useEffect(() => { if (machineSaved && resetOnSave)
setResetOnSave(false) }, ...)`: the flag is cleared once the save it was set
for has succeeded. -/
def clearResetOnSaveEffect (st : FormLifecycleState) : FormLifecycleState :=
  if st.machineSaved && st.resetOnSave then { st with resetOnSave := false }
  else st

/-- The state after the creation endpoint acknowledges success: `FormikForm`
consumes the save (reset or redirect), then the component effect clears the
per-submission flag. -/
def onSaveSuccess (initial : Values) (st : FormLifecycleState) :
    FormLifecycleState :=
  clearResetOnSaveEffect (formikFormOnSaved initial st)

/-! ### Concrete data used by witnesses and counterexamples -/

/-- The reference snapshot of Scenario A: every collection holds exactly one
item. -/
def scenarioARefs : ReferenceSnapshot :=
  { architectures := ["amd64"]
    domains := [⟨"maas"⟩]
    resourcePools := [⟨"default"⟩]
    zones := [⟨"default"⟩]
    defaultMinHweKernel := "" }

/-- A submitted value set whose `domain` names an entity that is not present
in `scenarioARefs.domains`. -/
def staleValues : Values :=
  { architecture := "amd64"
    domain := "other"
    extra_macs := []
    hostname := ""
    min_hwe_kernel := ""
    pool := "default"
    power_type := "manual"
    pxe_mac := "00:11:22:33:44:55"
    zone := "default" }

/-- A submitted value set with a non-empty hostname and an `extra_macs` list
mixing empty and non-empty entries. -/
def sampleValues : Values :=
  { architecture := "amd64"
    domain := "maas"
    extra_macs := ["AA:BB:CC:DD:EE:FF", "", "not-a-mac"]
    hostname := "my-host"
    min_hwe_kernel := ""
    pool := "default"
    power_type := "manual"
    pxe_mac := "00:11:22:33:44:55"
    zone := "default" }

/-! ### Helper lemmas -/

theorem mem_extraMacsErrorsFrom (l : List String) :
    ∀ start j, j ∈ extraMacsErrorsFrom start l ↔
      ∃ k, k < l.length ∧ j = start + k ∧ isMac (l.getD k "") = false := by
  induction l with
  | nil =>
    intro start j
    simp [extraMacsErrorsFrom]
  | cons e rest ih =>
    intro start j
    simp only [extraMacsErrorsFrom, List.mem_append, ih]
    constructor
    · rintro (hmem | ⟨k, hk, hj, hbad⟩)
      · by_cases he : isMac e = true
        · simp [he] at hmem
        · rw [Bool.not_eq_true] at he
          simp [he] at hmem
          exact ⟨0, by simp, by omega, by simpa using he⟩
      · exact ⟨k + 1, by simpa using Nat.succ_lt_succ hk, by omega,
          by simpa using hbad⟩
    · rintro ⟨k, hk, hj, hbad⟩
      cases k with
      | zero =>
        left
        simp only [List.getD_cons_zero] at hbad
        simp [hbad]
        omega
      | succ m =>
        right
        exact ⟨m, by simpa using Nat.lt_of_succ_lt_succ hk, by omega,
          by simpa using hbad⟩

theorem firstOrEmpty_head (l : List String) (a : String)
    (h : l.head? = some a) : firstOrEmpty l = a := by
  cases l with
  | nil => simp at h
  | cons x t =>
    simp only [List.head?_cons, Option.some.injEq] at h
    subst h
    by_cases hx : x = "" <;> simp [firstOrEmpty, hx]

theorem firstNameOrEmpty_head (l : List NamedRecord) (r : NamedRecord)
    (h : l.head? = some r) : firstNameOrEmpty l = r.name := by
  cases l with
  | nil => simp at h
  | cons x t =>
    simp only [List.head?_cons, Option.some.injEq] at h
    subst h
    by_cases hx : x.name = "" <;> simp [firstNameOrEmpty, hx]

/-! ### Claims -/

/-- C2: the synthesized schema requires the `pxe_mac` field to be present if
and only if the selected power-control type is not the sentinel `"ipmi"`; in
particular an absent `pxe_mac` passes validation exactly when the selected
type equals `"ipmi"`. -/
theorem C2_pxe_mac_required_iff_not_ipmi (power_type : Option String) :
    pxeMacErrors power_type none = [] ↔ power_type = some "ipmi" := by
  by_cases h : power_type = some "ipmi" <;>
    simp [pxeMacErrors, matchesTest, requiredTest, pxeMacConditionHolds, h]

/-- C10: a present, non-empty, malformed `pxe_mac` value fails validation
regardless of the selected power-control type — under the `"ipmi"` variant,
where the field may be absent, a provided malformed address still produces an
error. -/
theorem C10_malformed_pxe_mac_always_fails (power_type : Option String)
    (s : String) (_hne : s ≠ "") (hbad : isMac s = false) :
    pxeMacErrors power_type (some s) ≠ [] := by
  simp [pxeMacErrors, matchesTest, hbad]

/-- Witness for C10 at the `"ipmi"` variant and the malformed address
`"not-a-mac"`. -/
theorem C10_malformed_pxe_mac_always_fails_witness :
    ("not-a-mac" : String) ≠ "" ∧ isMac "not-a-mac" = false ∧
      pxeMacErrors (some "ipmi") (some "not-a-mac") ≠ [] :=
  ⟨by decide, by decide,
    C10_malformed_pxe_mac_always_fails (some "ipmi") "not-a-mac"
      (by decide) (by decide)⟩

/-- C5: each `extra_macs` entry is validated independently against the
six-octet colon-hex pattern — index `j` carries a field error exactly when
entry `j` fails the pattern, so other entries never affect it; and the list
`["AA:BB:CC:DD:EE:FF", "not-a-mac"]` yields exactly one field error, on the
second entry. -/
theorem C5_extra_macs_validated_independently :
    (∀ (l : List String) (j : Nat),
      j ∈ extraMacsErrors l ↔ j < l.length ∧ isMac (l.getD j "") = false) ∧
    extraMacsErrors ["AA:BB:CC:DD:EE:FF", "not-a-mac"] = [1] := by
  constructor
  · intro l j
    rw [extraMacsErrors, mem_extraMacsErrorsFrom]
    constructor
    · rintro ⟨k, hk, hj, hbad⟩
      have : j = k := by omega
      subst this
      exact ⟨hk, hbad⟩
    · rintro ⟨h1, h2⟩
      exact ⟨j, h1, by omega, h2⟩
  · decide

/-- Stated from the spec's words, for comparison with `errorsDisplay`: a
single message is shown verbatim, a mapping is normalized to the
concatenation of all present messages in iteration order, each followed by a
space. -/
def specNormalizedError : MachineErrors → String
  | .noErrors => ""
  | .str s => s
  | .obj entries => String.join (entries.map (fun kv => kv.2 ++ " "))

/-- C3: the displayed error string equals the payload verbatim for a single
string, and the concatenation of all messages (each followed by a space, in
iteration order) for a mapping; for the payload `{pool: "Pool not found"}` it
equals `"Pool not found "`. -/
theorem C3_errors_normalized :
    (∀ e : MachineErrors, errorsDisplay e = specNormalizedError e) ∧
    errorsDisplay (.obj [("pool", "Pool not found")]) = "Pool not found " := by
  constructor
  · intro e
    cases e with
    | noErrors => rfl
    | str s => by_cases h : s = "" <;> simp [errorsDisplay, specNormalizedError, h]
    | obj entries =>
      simp only [errorsDisplay, specNormalizedError, String.join,
        List.foldl_map]
      have hfun : (fun (a : String) (kv : String × String) => a ++ kv.2 ++ " ") =
          fun (a : String) (kv : String × String) => a ++ (kv.2 ++ " ") := by
        funext a kv
        rw [String.append_assoc]
      rw [hfun]
  · decide

/-- C4: the readiness predicate `allLoaded` is true exactly when all seven
reference collections report loaded, and the component renders the progress
indicator (instead of the form card) exactly while `allLoaded` is false. -/
theorem C4_readiness_gate (f : LoadedFlags) :
    (allLoaded f = true ↔
      f.architecturesLoaded = true ∧ f.defaultMinHweKernelLoaded = true ∧
        f.domainsLoaded = true ∧ f.hweKernelsLoaded = true ∧
        f.powerTypesLoaded = true ∧ f.resourcePoolsLoaded = true ∧
        f.zonesLoaded = true) ∧
    (allLoaded f = false ↔ render f = Rendered.spinner) := by
  constructor
  · simp [allLoaded, Bool.and_eq_true, and_assoc]
  · cases h : allLoaded f <;> simp [render, h]

/-- C6: each required selector field's initial value is the first item of its
backing reference collection when that collection is non-empty, and the empty
string when it is empty. -/
theorem C6_initial_selector_values (refs : ReferenceSnapshot) :
    (∀ a, refs.architectures.head? = some a →
      (initialValues refs).architecture = a) ∧
    (refs.architectures = [] → (initialValues refs).architecture = "") ∧
    (∀ d, refs.domains.head? = some d →
      (initialValues refs).domain = d.name) ∧
    (refs.domains = [] → (initialValues refs).domain = "") ∧
    (∀ p, refs.resourcePools.head? = some p →
      (initialValues refs).pool = p.name) ∧
    (refs.resourcePools = [] → (initialValues refs).pool = "") ∧
    (∀ z, refs.zones.head? = some z →
      (initialValues refs).zone = z.name) ∧
    (refs.zones = [] → (initialValues refs).zone = "") := by
  refine ⟨?_, ?_, ?_, ?_, ?_, ?_, ?_, ?_⟩
  · intro a ha
    exact firstOrEmpty_head _ _ ha
  · intro ha
    simp [initialValues, ha, firstOrEmpty]
  · intro d hd
    exact firstNameOrEmpty_head _ _ hd
  · intro hd
    simp [initialValues, hd, firstNameOrEmpty]
  · intro p hp
    exact firstNameOrEmpty_head _ _ hp
  · intro hp
    simp [initialValues, hp, firstNameOrEmpty]
  · intro z hz
    exact firstNameOrEmpty_head _ _ hz
  · intro hz
    simp [initialValues, hz, firstNameOrEmpty]

/-- Witness for C6 at the Scenario A snapshot: every collection holds exactly
one item and each selector's initial value is that item. -/
theorem C6_initial_selector_values_witness :
    (scenarioARefs.architectures.head? = some "amd64" ∧
      (initialValues scenarioARefs).architecture = "amd64") ∧
    (scenarioARefs.domains.head? = some ⟨"maas"⟩ ∧
      (initialValues scenarioARefs).domain = "maas") ∧
    (scenarioARefs.resourcePools.head? = some ⟨"default"⟩ ∧
      (initialValues scenarioARefs).pool = "default") ∧
    (scenarioARefs.zones.head? = some ⟨"default"⟩ ∧
      (initialValues scenarioARefs).zone = "default") :=
  ⟨⟨rfl, (C6_initial_selector_values scenarioARefs).1 "amd64" rfl⟩,
    ⟨rfl, (C6_initial_selector_values scenarioARefs).2.2.1 ⟨"maas"⟩ rfl⟩,
    ⟨rfl, (C6_initial_selector_values scenarioARefs).2.2.2.2.1 ⟨"default"⟩ rfl⟩,
    ⟨rfl, (C6_initial_selector_values scenarioARefs).2.2.2.2.2.2.1 ⟨"default"⟩ rfl⟩⟩

/-- C1 counterexample: with `staleValues.domain = "other"` absent from
`scenarioARefs.domains`, building the creation command does not fail — the
handler still dispatches exactly one creation command, whose `domain` field
is simply absent. -/
theorem C1_counterexample_stale_domain_still_dispatches :
    (∀ d ∈ scenarioARefs.domains, d.name ≠ staleValues.domain) ∧
    (onSubmit staleValues scenarioARefs).dispatchedCreates ≠ [] ∧
    (onSubmitParams staleValues scenarioARefs).domain = none := by
  decide

/-- C1 (amended): when the domain, resource-pool, or zone name in the
submitted values does not occur in the loaded reference collection, the
creation command is still built and dispatched — submission is not aborted
and no error is raised; the corresponding command field is absent (the
`undefined` result of `find`). -/
theorem C1_missing_reference_dispatches_absent_field
    (values : Values) (refs : ReferenceSnapshot) :
    (onSubmit values refs).dispatchedCreates = [onSubmitParams values refs] ∧
    ((∀ d ∈ refs.domains, d.name ≠ values.domain) →
      (onSubmitParams values refs).domain = none) ∧
    ((∀ p ∈ refs.resourcePools, p.name ≠ values.pool) →
      (onSubmitParams values refs).pool = none) ∧
    ((∀ z ∈ refs.zones, z.name ≠ values.zone) →
      (onSubmitParams values refs).zone = none) := by
  refine ⟨rfl, ?_, ?_, ?_⟩ <;>
    · intro h
      simp only [onSubmitParams, List.find?_eq_none, beq_iff_eq]
      exact h

/-- Witness for C1 (amended) at `staleValues` over the Scenario A snapshot. -/
theorem C1_missing_reference_dispatches_absent_field_witness :
    (∀ d ∈ scenarioARefs.domains, d.name ≠ staleValues.domain) ∧
    (onSubmitParams staleValues scenarioARefs).domain = none :=
  ⟨by decide,
    (C1_missing_reference_dispatches_absent_field staleValues
      scenarioARefs).2.1 (by decide)⟩

/-- C8: the secondary-address list of the built creation command consists of
exactly the non-empty entries of the submitted `extra_macs`, in their
original order (an order-preserving sublist, containing no empty entry, with
every non-empty entry kept with its multiplicity). -/
theorem C8_extra_macs_strip_falsy (values : Values) (refs : ReferenceSnapshot) :
    (onSubmitParams values refs).extra_macs.Sublist values.extra_macs ∧
    (∀ x, x ∈ (onSubmitParams values refs).extra_macs ↔
      x ∈ values.extra_macs ∧ x ≠ "") ∧
    (∀ x, x ≠ "" →
      (onSubmitParams values refs).extra_macs.count x =
        values.extra_macs.count x) := by
  refine ⟨List.filter_sublist _, ?_, ?_⟩
  · intro x
    simp [onSubmitParams, List.mem_filter]
  · intro x hx
    simp only [onSubmitParams]
    rw [List.count_filter]
    simp [hx]

/-- Witness for C8 at `sampleValues`, whose `extra_macs` mixes empty and
non-empty entries. -/
theorem C8_extra_macs_strip_falsy_witness :
    ("AA:BB:CC:DD:EE:FF" : String) ≠ "" ∧
    (onSubmitParams sampleValues scenarioARefs).extra_macs.count
        "AA:BB:CC:DD:EE:FF" =
      sampleValues.extra_macs.count "AA:BB:CC:DD:EE:FF" :=
  ⟨by decide,
    (C8_extra_macs_strip_falsy sampleValues scenarioARefs).2.2
      "AA:BB:CC:DD:EE:FF" (by decide)⟩

/-- C9: the success notification text carries the submitted hostname when it
is non-empty and the generic label "Machine" when it was left empty, while
the creation command's hostname field always carries the submitted value
verbatim (the empty string included). -/
theorem C9_notification_fallback (values : Values) (refs : ReferenceSnapshot) :
    (values.hostname ≠ "" →
      successMessage (onSubmit values refs).savingMachine =
        values.hostname ++ " added successfully.") ∧
    (values.hostname = "" →
      successMessage (onSubmit values refs).savingMachine =
        "Machine" ++ " added successfully.") ∧
    (onSubmitParams values refs).hostname = values.hostname := by
  refine ⟨?_, ?_, rfl⟩
  · intro h
    simp [onSubmit, successMessage, h]
  · intro h
    simp [onSubmit, successMessage, h]

/-- Witness for C9: a non-empty hostname appears verbatim in the notification,
while the command's hostname equals the submitted value. -/
theorem C9_notification_fallback_witness :
    (sampleValues.hostname ≠ "" ∧
      successMessage (onSubmit sampleValues scenarioARefs).savingMachine =
        sampleValues.hostname ++ " added successfully.") ∧
    (staleValues.hostname = "" ∧
      successMessage (onSubmit staleValues scenarioARefs).savingMachine =
        "Machine" ++ " added successfully.") :=
  ⟨⟨by decide,
      (C9_notification_fallback sampleValues scenarioARefs).1 (by decide)⟩,
    ⟨by decide,
      (C9_notification_fallback staleValues scenarioARefs).2.1 (by decide)⟩⟩

/-- C7: the `resetOnSave` flag is set by choosing "Save and add another" and
cleared once the save it was set for succeeds; on a successful save with the
flag set the values reset to defaults and no navigation request is issued,
while with the flag unset a navigation request to "/machines" is issued and
the values are kept. -/
theorem C7_reset_on_save_per_submission (initial : Values)
    (st : FormLifecycleState) :
    (clickSecondarySubmit st).resetOnSave = true ∧
    (st.resetOnSave = true →
      (onSaveSuccess initial st).resetOnSave = false ∧
      (onSaveSuccess initial st).values = initial ∧
      (onSaveSuccess initial st).navigation = none) ∧
    (st.resetOnSave = false →
      (onSaveSuccess initial st).navigation = some "/machines" ∧
      (onSaveSuccess initial st).values = st.values) := by
  refine ⟨rfl, ?_, ?_⟩
  · intro h
    simp [onSaveSuccess, clearResetOnSaveEffect, formikFormOnSaved,
      savedRedirect, h]
  · intro h
    simp [onSaveSuccess, clearResetOnSaveEffect, formikFormOnSaved,
      savedRedirect, h]

/-- Witness for C7 at a concrete lifecycle state in both flag positions. -/
theorem C7_reset_on_save_per_submission_witness :
    (({ resetOnSave := true, values := sampleValues, machineSaved := false,
        navigation := none } : FormLifecycleState).resetOnSave = true ∧
      (onSaveSuccess (initialValues scenarioARefs)
        { resetOnSave := true, values := sampleValues, machineSaved := false,
          navigation := none }).navigation = none) ∧
    (({ resetOnSave := false, values := sampleValues, machineSaved := false,
        navigation := none } : FormLifecycleState).resetOnSave = false ∧
      (onSaveSuccess (initialValues scenarioARefs)
        { resetOnSave := false, values := sampleValues, machineSaved := false,
          navigation := none }).navigation = some "/machines") :=
  ⟨⟨rfl,
      ((C7_reset_on_save_per_submission (initialValues scenarioARefs)
        { resetOnSave := true, values := sampleValues, machineSaved := false,
          navigation := none }).2.1 rfl).2.2⟩,
    ⟨rfl,
      ((C7_reset_on_save_per_submission (initialValues scenarioARefs)
        { resetOnSave := false, values := sampleValues, machineSaved := false,
          navigation := none }).2.2 rfl).1⟩⟩

end AddMachine
